import Mathlib

/-!
Verification of the C-SHELPh bathymetry pipeline orchestration
(`cshelph/run_cshelph.py` and `bin/run_bathy_extraction.py`).

The pipeline's numeric data (Python floats) is embedded as `ℚ`, confidence
codes as `ℤ`, and parallel numpy arrays as Lean lists.  A Python function
that can raise is embedded as a function into `Except String`; NaN
("missing value") propagation is embedded as `Option`.
-/

namespace CShelph

/-- The primary photon table of `run_cshelph`: the orthometrically corrected
parallel arrays `lat_utm`, `lon_utm`, `photon_h` and the confidence array
`conf` (lines 87-115 of `run_cshelph.py`). -/
structure PrimaryArrays where
  lat_utm : List ℚ
  lon_utm : List ℚ
  photon_h : List ℚ
  conf : List ℤ
deriving Repr, DecidableEq

/-- The interpolated geometry table of `run_cshelph`: the per-photon
arrays `ph_ref_elev`, `ph_ref_azimuth`, `ph_sat_alt` produced by
`ref_linear_interp` (lines 101-107 of `run_cshelph.py`). -/
structure GeoArrays where
  ph_ref_elev : List ℚ
  ph_ref_azimuth : List ℚ
  ph_sat_alt : List ℚ
deriving Repr, DecidableEq

/-- Lines 112-121 of `run_cshelph.py`:

    if (lat_utm_len != lon_utm_len) and (conf_len != lon_utm_len)
            and (conf_len != photon_h_len):
        raise Exception("lat_utm, lon_utm and conf_len must have same length")

Note the condition is a conjunction of the three inequalities. -/
def validatePrimaryArrays (pa : PrimaryArrays) : Except String Unit :=
  if pa.lat_utm.length ≠ pa.lon_utm.length ∧ pa.conf.length ≠ pa.lon_utm.length ∧
      pa.conf.length ≠ pa.photon_h.length then
    .error "lat_utm, lon_utm and conf_len must have same length"
  else
    .ok ()

/-- Lines 123-132 of `run_cshelph.py`:

    if (ph_ref_elev_len != ph_ref_azimuth_len) and (
        ph_ref_azimuth_len != ph_sat_alt_len
    ):
        raise Exception("ph_ref_elev, ph_ref_azimuth and ph_sat_alt must have same length")

Again the condition is a conjunction of the two inequalities. -/
def validateGeoArrays (ga : GeoArrays) : Except String Unit :=
  if ga.ph_ref_elev.length ≠ ga.ph_ref_azimuth.length ∧
      ga.ph_ref_azimuth.length ≠ ga.ph_sat_alt.length then
    .error "ph_ref_elev, ph_ref_azimuth and ph_sat_alt must have same length"
  else
    .ok ()

/-- True iff the four primary arrays all have the same length. -/
def primaryLengthsAllEqual (pa : PrimaryArrays) : Prop :=
  pa.lat_utm.length = pa.lon_utm.length ∧ pa.lon_utm.length = pa.photon_h.length ∧
    pa.photon_h.length = pa.conf.length

instance (pa : PrimaryArrays) : Decidable (primaryLengthsAllEqual pa) := by
  unfold primaryLengthsAllEqual; infer_instance

/-- Lines 134-145 of `run_cshelph.py`, the cross-table length
reconciliation ("Hacked Solution to Resolving Differences in Length"):

    if lat_utm_len != ph_ref_elev_len:
        if ph_ref_elev_len > lat_utm_len:
            ph_ref_elev = ph_ref_elev[0:lat_utm_len]
            ph_ref_azimuth = ph_ref_azimuth[0:lat_utm_len]
            ph_sat_alt = ph_sat_alt[0:lat_utm_len]
        elif lat_utm_len > ph_ref_elev_len:
            lat_utm = lat_utm[0:ph_ref_elev_len]
            lon_utm = lon_utm[0:ph_ref_elev_len]
            photon_h = photon_h[0:ph_ref_elev_len]
            conf = conf[0:ph_ref_elev_len]
        else:
            raise Exception("Interpolated variables do not have same length")

A Python slice `a[0:n]` is `List.take n`. -/
def reconcile (pa : PrimaryArrays) (ga : GeoArrays) :
    Except String (PrimaryArrays × GeoArrays) :=
  if pa.lat_utm.length ≠ ga.ph_ref_elev.length then
    if ga.ph_ref_elev.length > pa.lat_utm.length then
      .ok (pa,
        { ph_ref_elev := ga.ph_ref_elev.take pa.lat_utm.length
          ph_ref_azimuth := ga.ph_ref_azimuth.take pa.lat_utm.length
          ph_sat_alt := ga.ph_sat_alt.take pa.lat_utm.length })
    else if pa.lat_utm.length > ga.ph_ref_elev.length then
      .ok ({ lat_utm := pa.lat_utm.take ga.ph_ref_elev.length
             lon_utm := pa.lon_utm.take ga.ph_ref_elev.length
             photon_h := pa.photon_h.take ga.ph_ref_elev.length
             conf := pa.conf.take ga.ph_ref_elev.length }, ga)
    else
      .error "Interpolated variables do not have same length"
  else
    .ok (pa, ga)

/-- Lines 123-127 of `bin/run_bathy_extraction.py`:

    if (args.thresh is None) and (args.threshlist is None):
        raise Exception("Must provide either a threshold percentage or "
                        "a list of thresholds to test.")

This is the only check on the pair of threshold arguments. -/
def validateThreshArgs (thresh : Option Int) (threshlist : Option (List Int)) :
    Except String Unit :=
  if thresh = none ∧ threshlist = none then
    .error "Must provide either a threshold percentage or a list of thresholds to test."
  else
    .ok ()

/-- True iff the three geometry arrays all have the same length. -/
def geoLengthsAllEqual (ga : GeoArrays) : Prop :=
  ga.ph_ref_elev.length = ga.ph_ref_azimuth.length ∧
    ga.ph_ref_azimuth.length = ga.ph_sat_alt.length

instance (ga : GeoArrays) : Decidable (geoLengthsAllEqual ga) := by
  unfold geoLengthsAllEqual; infer_instance

/-- Lines 289-312 of `run_cshelph.py`: the threshold sweep,

    for thresh in threshlist:
        bath_height, geo_df = cshelph.get_bath_height(...)
        ...
        cshelph.produce_figures(...)

The loop body's work for one threshold (`get_bath_height` and
`produce_figures`, both external collaborators) is passed in as the
fallible evaluation `evalThresh`.  The body is not wrapped in any
`try`/`except`, so an exception raised for one threshold propagates and
ends the loop (and, via lines 313-314, the whole run); this is embedded
as an early-exit fold. -/
def sweepThresholds {α : Type} (evalThresh : Int → Except String α) :
    List Int → Except String (List α)
  | [] => .ok []
  | t :: ts =>
    match evalThresh t with
    | .error e => .error e
    | .ok a => (sweepThresholds evalThresh ts).map (fun rs => a :: rs)

/-- The same loop, instrumented to record which thresholds the loop body
actually runs for: when `evalThresh t` raises, `t` is the last threshold
attempted and the loop ends. -/
def sweepEvaluated {α : Type} (evalThresh : Int → Except String α) :
    List Int → List Int
  | [] => []
  | t :: ts =>
    match evalThresh t with
    | .error _ => [t]
    | .ok _ => t :: sweepEvaluated evalThresh ts

/-- A per-threshold evaluation that fails at threshold 25 (for example
because classification retains no points there) and succeeds elsewhere. -/
def evalFailAt25 : Int → Except String Unit :=
  fun t => if t = 25 then .error "no bathymetric points retained" else .ok ()

/-- Lines 209-216 of `run_cshelph.py`:

    if water_temp is None:
        try:
            water_temp = cshelph.get_water_temp(input_h5_file, latitude, longitude)
        except Exception as e:
            print("NO SST PROVIDED OR RETRIEVED: 20 degrees C assigned")
            water_temp = 20

`get_water_temp` is an external collaborator; its outcome is passed in as
an `Except`.  The returned Bool records whether the warning line was
printed.  The function is total (it returns a plain pair, not an
`Except`): the lookup's exception is caught and never re-raised, so a
lookup failure is never fatal and the run continues. -/
def resolveWaterTemp (water_temp : Option ℚ) (lookup : Except String ℚ) : ℚ × Bool :=
  match water_temp with
  | some t => (t, false)
  | none =>
    match lookup with
    | .ok t => (t, false)
    | .error _ => (20, true)

/-- Lines 198-201 of `run_cshelph.py`:

    if surface_buffer == -0.5:
        surface_buffer = -0.5
    else:
        surface_buffer = surface_buffer
-/
def surfaceBufferPreprocess (surface_buffer : ℚ) : ℚ :=
  if surface_buffer = -(1/2 : ℚ) then -(1/2 : ℚ) else surface_buffer

/-- One row of the photon dataframe `dataset_sea` built at lines 150-169
of `run_cshelph.py` (column names as in the source). -/
structure PhotonRow where
  latitude : ℚ
  longitude : ℚ
  photon_height : ℚ
  confidence : ℤ
  ref_elevation : ℚ
  ref_azminuth : ℚ
  ref_sat_alt : ℚ
deriving Repr, DecidableEq

/-- Lines 175-177 of `run_cshelph.py`:

    dataset_sea1 = dataset_sea[(dataset_sea.confidence != 0)
                               & (dataset_sea.confidence != 1)]
-/
def filterConfidence (rows : List PhotonRow) : List PhotonRow :=
  rows.filter (fun r => !(r.confidence == 0) && !(r.confidence == 1))

/-- Lines 179-182 of `run_cshelph.py`:

    dataset_sea1 = dataset_sea1[(dataset_sea1["photon_height"] > min_buffer)
                                & (dataset_sea1["photon_height"] < max_buffer)]
-/
def filterHeightBuffer (rows : List PhotonRow) (min_buffer max_buffer : ℚ) :
    List PhotonRow :=
  rows.filter (fun r =>
    decide (min_buffer < r.photon_height) && decide (r.photon_height < max_buffer))

/-- Lines 184-189 of `run_cshelph.py`:

    if start_lat is not None:
        dataset_sea1 = dataset_sea1[(dataset_sea1["latitude"] > start_lat)
                                    & (dataset_sea1["latitude"] < end_lat)]

When `start_lat` is None the branch is skipped entirely (`end_lat` is read
nowhere else in `run_cshelph`).  When `start_lat` is given but `end_lat`
is None, the pandas comparison of the latitude column with None raises a
`TypeError`. -/
def focusLatitude (start_lat end_lat : Option ℚ) (rows : List PhotonRow) :
    Except String (List PhotonRow) :=
  match start_lat with
  | none => .ok rows
  | some s =>
    match end_lat with
    | none => .error "TypeError: comparison of latitude column with None"
    | some e => .ok (rows.filter (fun r =>
        decide (s < r.latitude) && decide (r.latitude < e)))

/-- Lines 175-189 of `run_cshelph.py`: the three filters applied to
`dataset_sea`, in source order. -/
def filterStage (rows : List PhotonRow) (min_buffer max_buffer : ℚ)
    (start_lat end_lat : Option ℚ) : Except String (List PhotonRow) :=
  focusLatitude start_lat end_lat
    (filterHeightBuffer (filterConfidence rows) min_buffer max_buffer)

/-- A collaborator call made by the threshold-list branch of
`run_cshelph` (lines 218-312), with the argument a `get_bath_height`
call reads; `β` is the type of the re-binned bathymetry table. -/
inductive TraceEvent (β : Type) where
  | refractionCorrection : TraceEvent β
  | binData : TraceEvent β
  | getBathHeight : Int → β → TraceEvent β

/-- Whether an event is the `refraction_correction` call. -/
def TraceEvent.isRefractionCorrection {β : Type} : TraceEvent β → Bool
  | .refractionCorrection => true
  | _ => false

/-- Whether an event is the bathymetry `bin_data` call. -/
def TraceEvent.isBinData {β : Type} : TraceEvent β → Bool
  | .binData => true
  | _ => false

/-- Lines 289-294 of `run_cshelph.py`, instrumented: the `for` loop over
`threshlist` calls `get_bath_height(binned_data, int(thresh), ...)` once
per threshold; `binned_data` is never reassigned inside the loop, so each
call reads the same value. -/
def classifySweepCalls {β : Type} (binned_data : β) :
    List Int → List (TraceEvent β)
  | [] => []
  | t :: ts => TraceEvent.getBathHeight t binned_data ::
      classifySweepCalls binned_data ts

/-- Lines 218-312 of `run_cshelph.py`, threshold-list branch, as the
sequence of collaborator calls it makes: `refraction_correction` is called
once on `dataset_sea1` (line 220), its result `dataset_bath` is re-binned
by one `bin_data` call (line 263), and the sweep loop then classifies each
threshold against the resulting `binned_data`.  The two collaborators
(not under the orchestration source) are passed in as functions `γ → α`
and `α → β`. -/
def threshlistBranchTrace {α β γ : Type} (refraction_correction : γ → α)
    (bin_data : α → β) (dataset_sea1 : γ) (threshlist : List Int) :
    List (TraceEvent β) :=
  TraceEvent.refractionCorrection :: TraceEvent.binData ::
    classifySweepCalls (bin_data (refraction_correction dataset_sea1)) threshlist

/-- Minimum of a list of rationals (0 for the empty list, which the
binner never consults since an empty table produces no bins). -/
def qmin (xs : List ℚ) : ℚ :=
  match xs with
  | [] => 0
  | x :: rest => rest.foldl min x

/-- Median of a list of rationals, `none` for the empty list; with an even
number of values, the mean of the two central values. -/
def medianQ (xs : List ℚ) : Option ℚ :=
  if xs.isEmpty then none
  else
    let sorted := xs.insertionSort (· ≤ ·)
    let n := sorted.length
    if n % 2 = 1 then some (sorted.getD (n / 2) 0)
    else some ((sorted.getD (n / 2 - 1) 0 + sorted.getD (n / 2) 0) / 2)

/-- A cell of the (latitude band × height band) grid, with the median
member height as the bin's representative height statistic. -/
structure SeaBin where
  lat_band : ℤ
  h_band : ℤ
  height : ℚ
  count : ℕ
deriving Repr, DecidableEq

/-- The (latitude band, height band) key of a photon: floor division of
(value − minimum observed value) by the resolution. -/
def binKey (lat_min h_min lat_res h_res : ℚ) (r : PhotonRow) : ℤ × ℤ :=
  (⌊(r.latitude - lat_min) / lat_res⌋, ⌊(r.photon_height - h_min) / h_res⌋)

/-- Modelled from the spec: the Spatial Binner `cshelph.bin_data` (called
at lines 195 and 263 of `run_cshelph.py`) is not under `src/`; per spec
§4.3 it assigns every photon to exactly one (latitude band, height band)
pair by floor division of (value − minimum observed value) by the
resolution, and produces one bin per non-empty pair with its member count
and a derived median-height statistic.  An empty table yields no bins. -/
def bin_data (rows : List PhotonRow) (lat_res h_res : ℚ) : List SeaBin :=
  let lat_min := qmin (rows.map PhotonRow.latitude)
  let h_min := qmin (rows.map PhotonRow.photon_height)
  ((rows.map (binKey lat_min h_min lat_res h_res)).dedup).map (fun k =>
    let members := rows.filter (fun r => decide (binKey lat_min h_min lat_res h_res r = k))
    { lat_band := k.1
      h_band := k.2
      height := (medianQ (members.map PhotonRow.photon_height)).getD 0
      count := members.length })

/-- The bin with the highest photon count, `none` when there are no bins. -/
def densestBin (bins : List SeaBin) : Option SeaBin :=
  bins.foldl (fun acc b =>
    match acc with
    | none => some b
    | some a => if b.count > a.count then some b else some a) none

/-- Modelled from the spec: the Sea-Surface Estimator
`cshelph.get_sea_height` (called at line 203 of `run_cshelph.py`) is not
under `src/`; per spec §4.4 it scans, for each latitude band, that band's
height bins — excluding those whose representative height is above the
surface-buffer elevation — and takes the representative height of the bin
with the highest photon density as the band's surface candidate; a band
with no qualifying bins contributes no candidate, and no bins at all
yield no candidates. -/
def get_sea_height (bins : List SeaBin) (surface_buffer : ℚ) : List ℚ :=
  ((bins.map SeaBin.lat_band).dedup).filterMap (fun lb =>
    let qualifying := bins.filter (fun b =>
      decide (b.lat_band = lb) && decide (b.height ≤ surface_buffer))
    (densestBin qualifying).map SeaBin.height)

/-- Modelled from the spec: `np.nanmedian` (line 206 of `run_cshelph.py`,
external numeric library): the median of the candidate heights, a missing
value (NaN, embedded as `none`) when there are no candidates. -/
def nanmedian (xs : List ℚ) : Option ℚ :=
  medianQ xs

/-- Lines 175-206 of `run_cshelph.py`: filter the photon dataframe, bin
it, estimate per-latitude-band sea heights, and take their median as
`med_water_surface_h`. -/
def seaSurfaceStage (dataset_sea : List PhotonRow) (lat_res h_res : ℚ)
    (min_buffer max_buffer : ℚ) (start_lat end_lat : Option ℚ)
    (surface_buffer : ℚ) : Except String (Option ℚ) :=
  (filterStage dataset_sea min_buffer max_buffer start_lat end_lat).map
    (fun dataset_sea1 =>
      nanmedian (get_sea_height (bin_data dataset_sea1 lat_res h_res)
        (surfaceBufferPreprocess surface_buffer)))

/-- Line 236 of `run_cshelph.py`: `depth = med_water_surface_h - ref_z`, a
vectorized subtraction in which a missing (NaN) water-surface estimate
propagates to every element of the depth array. -/
def computeDepths (med_water_surface_h : Option ℚ) (ref_z : List ℚ) :
    List (Option ℚ) :=
  ref_z.map (fun z => med_water_surface_h.map (fun m => m - z))

end CShelph

namespace CShelph

/-- C1: the length validation is a conjunction of pairwise inequalities,
so a primary table whose arrays do not all have the same length (here
`lat_utm` has 2 rows, the other three have 1) passes the check without
raising, and likewise a geometry table with mismatched internal lengths
(`ph_ref_elev` has 2 rows, the other two have 1) passes its check; the
pipeline does not fail with a validation error before combining the
tables, contradicting each check's own error message ("... must have same
length"). -/
theorem c1_internal_mismatch_passes_validation :
    validatePrimaryArrays ⟨[0, 0], [0], [0], [0]⟩ = Except.ok () ∧
      ¬ primaryLengthsAllEqual ⟨[0, 0], [0], [0], [0]⟩ ∧
      validateGeoArrays ⟨[0, 0], [0], [0]⟩ = Except.ok () ∧
      ¬ geoLengthsAllEqual ⟨[0, 0], [0], [0]⟩ :=
  ⟨rfl, by decide, rfl, by decide⟩

/-- C2 counterexample: sweeping the threshold list `[20, 25, 30]` with an
evaluation that fails at 25, the loop evaluates only 20 and 25 — the
remaining threshold 30 is never evaluated — and the sweep (hence the run)
aborts with 25's error instead of reporting it individually and
continuing. -/
theorem c2_counterexample :
    sweepEvaluated evalFailAt25 [20, 25, 30] = [20, 25] ∧
      30 ∉ sweepEvaluated evalFailAt25 [20, 25, 30] ∧
      sweepThresholds evalFailAt25 [20, 25, 30] =
        Except.error "no bathymetric points retained" := by
  refine ⟨rfl, ?_, rfl⟩
  decide

/-- C2 (amended): the failure of one threshold's classification aborts
the evaluation of the remaining thresholds in the list: the first
threshold whose evaluation fails is the last one evaluated, its error
propagates out of the sweep, and no individual report of the failure is
made for the sake of the siblings. -/
theorem c2_sweep_aborts_on_first_failure {α : Type}
    (evalThresh : Int → Except String α) (t : Int) (ts : List Int) (e : String)
    (h : evalThresh t = Except.error e) :
    sweepThresholds evalThresh (t :: ts) = Except.error e ∧
      sweepEvaluated evalThresh (t :: ts) = [t] := by
  constructor
  · unfold sweepThresholds; rw [h]
  · unfold sweepEvaluated; rw [h]

/-- C2 witness: the amended abort behaviour at a concrete failing
threshold. -/
theorem c2_sweep_witness :
    sweepThresholds evalFailAt25 (25 :: [30]) =
        Except.error "no bathymetric points retained" ∧
      sweepEvaluated evalFailAt25 (25 :: [30]) = [25] :=
  c2_sweep_aborts_on_first_failure evalFailAt25 25 [30]
    "no bathymetric points retained" rfl

/-- C3: whenever the (internally consistent) photon table of length m and
geometry table of length n reach the cross-table reconciliation, the
result is both tables truncated to their first `min m n` rows — trailing
rows only are discarded, the kept prefix of every array is unchanged and
in order — and when m = n both tables pass through unmodified. -/
theorem c3_reconcile_truncates_to_min (pa : PrimaryArrays) (ga : GeoArrays)
    (hlon : pa.lon_utm.length = pa.lat_utm.length)
    (hph : pa.photon_h.length = pa.lat_utm.length)
    (hconf : pa.conf.length = pa.lat_utm.length)
    (hazi : ga.ph_ref_azimuth.length = ga.ph_ref_elev.length)
    (halt : ga.ph_sat_alt.length = ga.ph_ref_elev.length) :
    reconcile pa ga = Except.ok
      ({ lat_utm := pa.lat_utm.take (min pa.lat_utm.length ga.ph_ref_elev.length)
         lon_utm := pa.lon_utm.take (min pa.lat_utm.length ga.ph_ref_elev.length)
         photon_h := pa.photon_h.take (min pa.lat_utm.length ga.ph_ref_elev.length)
         conf := pa.conf.take (min pa.lat_utm.length ga.ph_ref_elev.length) },
       { ph_ref_elev := ga.ph_ref_elev.take (min pa.lat_utm.length ga.ph_ref_elev.length)
         ph_ref_azimuth := ga.ph_ref_azimuth.take (min pa.lat_utm.length ga.ph_ref_elev.length)
         ph_sat_alt := ga.ph_sat_alt.take (min pa.lat_utm.length ga.ph_ref_elev.length) }) ∧
    (pa.lat_utm.length = ga.ph_ref_elev.length → reconcile pa ga = Except.ok (pa, ga)) := by
  obtain ⟨la, lo, ph, cf⟩ := pa
  obtain ⟨el, az, al⟩ := ga
  simp only at hlon hph hconf hazi halt ⊢
  unfold reconcile
  simp only
  rcases lt_trichotomy la.length el.length with h | h | h
  · refine ⟨?_, fun he => absurd he h.ne⟩
    rw [if_pos h.ne, if_pos h, min_eq_left h.le, List.take_length,
      List.take_of_length_le hlon.le, List.take_of_length_le hph.le,
      List.take_of_length_le hconf.le]
  · refine ⟨?_, fun _ => ?_⟩
    · rw [if_neg (not_not_intro h), min_eq_left h.le, List.take_length,
        List.take_of_length_le hlon.le, List.take_of_length_le hph.le,
        List.take_of_length_le hconf.le, List.take_of_length_le h.ge,
        List.take_of_length_le (hazi.trans h.symm).le,
        List.take_of_length_le (halt.trans h.symm).le]
    · rw [if_neg (not_not_intro h)]
  · refine ⟨?_, fun he => absurd he h.ne'⟩
    rw [if_pos h.ne', if_neg (not_lt.mpr h.le), if_pos h, min_eq_right h.le,
      List.take_length, List.take_of_length_le hazi.le,
      List.take_of_length_le halt.le]

/-- C3 witness: reconciliation of a concrete photon table of length 2
against a geometry table of length 1 truncates to length 1. -/
theorem c3_reconcile_witness :
    reconcile ⟨[1, 2], [3, 4], [5, 6], [7, 8]⟩ ⟨[9], [10], [11]⟩ =
      Except.ok (⟨[1], [3], [5], [7]⟩, ⟨[9], [10], [11]⟩) :=
  (c3_reconcile_truncates_to_min ⟨[1, 2], [3, 4], [5, 6], [7, 8]⟩
    ⟨[9], [10], [11]⟩ rfl rfl rfl rfl rfl).1

/-- C6: in a run where the caller supplies no water temperature and the
water-temperature lookup fails (with any error), the pipeline substitutes
the documented default of 20 degrees C, prints the warning line, and —
since the exception is caught inside the stage — continues the run; the
lookup failure is never fatal. -/
theorem c6_water_temp_default_on_failure (e : String) :
    resolveWaterTemp none (Except.error e) = (20, true) := rfl

/-- C4 counterexample input: both a single threshold and a threshold list
supplied. The CLI accepts this run. -/
theorem c4_counterexample :
    validateThreshArgs (some 20) (some [20, 25, 30]) = Except.ok () := by
  rfl

/-- C4 (amended): the command-line surface accepts a run exactly when at
least one of the single threshold (`--thresh`) and the threshold list
(`--threshlist`) is supplied; it rejects the run with an error only when
neither is given.  When both are given the run is accepted (and
`run_cshelph` then uses the single threshold, ignoring the list). -/
theorem c4_thresh_args_accept_iff_at_least_one
    (thresh : Option Int) (threshlist : Option (List Int)) :
    validateThreshArgs thresh threshlist = Except.ok () ↔
      (thresh ≠ none ∨ threshlist ≠ none) := by
  unfold validateThreshArgs
  by_cases h : thresh = none ∧ threshlist = none
  · simp [h.1, h.2]
  · rw [if_neg h]
    simp only [true_iff]
    rcases thresh with _ | t
    · rcases threshlist with _ | l
      · exact absurd ⟨rfl, rfl⟩ h
      · exact Or.inr (by simp)
    · exact Or.inl (by simp)

/-- C4 witness: the amended acceptance condition at a concrete input. -/
theorem c4_thresh_args_witness :
    validateThreshArgs (some 20) none = Except.ok () :=
  (c4_thresh_args_accept_iff_at_least_one (some 20) none).mpr (Or.inl (by simp))

/-- C8: the final `else` branch of the cross-table reconciliation, raising
"Interpolated variables do not have same length", is unreachable: whenever
`lat_utm_len != ph_ref_elev_len`, by trichotomy exactly one of the two
truncation branches applies (and on equal lengths the outer branch is
skipped), so `reconcile` always returns a reconciled pair and never
returns that error. -/
theorem c8_reconcile_else_unreachable (pa : PrimaryArrays) (ga : GeoArrays) :
    (∃ out, reconcile pa ga = Except.ok out) ∧
      reconcile pa ga ≠ Except.error "Interpolated variables do not have same length" := by
  have hok : ∃ out, reconcile pa ga = Except.ok out := by
    unfold reconcile
    rcases lt_trichotomy pa.lat_utm.length ga.ph_ref_elev.length with h | h | h
    · rw [if_pos (Nat.ne_of_lt h), if_pos h]; exact ⟨_, rfl⟩
    · rw [if_neg (not_not_intro h)]; exact ⟨_, rfl⟩
    · rw [if_pos (Nat.ne_of_gt h), if_neg (not_lt.mpr h.le), if_pos h]
      exact ⟨_, rfl⟩
  obtain ⟨out, hout⟩ := hok
  exact ⟨⟨out, hout⟩, by rw [hout]; exact fun hc => Except.noConfusion hc⟩

/-- C9: the `surface_buffer` pre-processing conditional is the identity
function: `get_sea_height` receives exactly the `surface_buffer` value the
caller supplied, whichever branch is taken. -/
theorem c9_surface_buffer_identity (surface_buffer : ℚ) :
    surfaceBufferPreprocess surface_buffer = surface_buffer := by
  unfold surfaceBufferPreprocess
  by_cases h : surface_buffer = -(1/2 : ℚ)
  · rw [if_pos h]; exact h.symm
  · rw [if_neg h]

/-- The sweep loop's classification calls are exactly one per threshold,
each reading the given binned dataset. -/
lemma classifySweepCalls_eq_map {β : Type} (b : β) (tl : List Int) :
    classifySweepCalls b tl = tl.map (fun t => TraceEvent.getBathHeight t b) := by
  induction tl with
  | nil => rfl
  | cons t ts ih => simp [classifySweepCalls, ih]

/-- No classification call is a refraction-correction or binning event. -/
lemma classifySweepCalls_no_setup {β : Type} (b : β) (tl : List Int) :
    (∀ e ∈ classifySweepCalls b tl, e.isRefractionCorrection = false) ∧
      (∀ e ∈ classifySweepCalls b tl, e.isBinData = false) := by
  rw [classifySweepCalls_eq_map]
  constructor <;>
    (intro e he
     obtain ⟨t, _, rfl⟩ := List.mem_map.mp he
     rfl)

/-- C7: in a threshold-list run, refraction correction and the bathymetric
re-binning are each performed exactly once, before the sweep begins (they
are the first two calls of the trace), and every threshold's
classification call reads the same binned corrected dataset
`bin_data (refraction_correction dataset_sea1)` — one call per threshold,
none recomputing or replacing it. -/
theorem c7_refraction_and_binning_once {α β γ : Type}
    (refraction_correction : γ → α) (bin_data : α → β) (dataset_sea1 : γ)
    (threshlist : List Int) :
    ((threshlistBranchTrace refraction_correction bin_data dataset_sea1
        threshlist).countP TraceEvent.isRefractionCorrection = 1) ∧
    ((threshlistBranchTrace refraction_correction bin_data dataset_sea1
        threshlist).countP TraceEvent.isBinData = 1) ∧
    ((threshlistBranchTrace refraction_correction bin_data dataset_sea1
        threshlist).take 2 =
      [TraceEvent.refractionCorrection, TraceEvent.binData]) ∧
    ((threshlistBranchTrace refraction_correction bin_data dataset_sea1
        threshlist).drop 2 =
      threshlist.map (fun t => TraceEvent.getBathHeight t
        (bin_data (refraction_correction dataset_sea1)))) := by
  obtain ⟨h1, h2⟩ := classifySweepCalls_no_setup
    (bin_data (refraction_correction dataset_sea1)) threshlist
  refine ⟨?_, ?_, rfl, classifySweepCalls_eq_map _ _⟩
  · unfold threshlistBranchTrace
    rw [List.countP_cons, List.countP_cons, List.countP_eq_zero.mpr ?_]
    · rfl
    · intro e he
      simp [h1 e he]
  · unfold threshlistBranchTrace
    rw [List.countP_cons, List.countP_cons, List.countP_eq_zero.mpr ?_]
    · rfl
    · intro e he
      simp [h2 e he]

/-- C10: when `start_lat` is None, no latitude restriction is applied —
the photon table leaves the filter stage exactly as the buffer filter
produced it — and the stage's (hence the run's) result does not depend on
`end_lat`: two runs identical except for `end_lat` produce identical
outputs. -/
theorem c10_end_lat_noninterference (rows : List PhotonRow)
    (min_buffer max_buffer : ℚ) (end_lat end_lat' : Option ℚ) :
    filterStage rows min_buffer max_buffer none end_lat =
      Except.ok (filterHeightBuffer (filterConfidence rows) min_buffer max_buffer) ∧
    filterStage rows min_buffer max_buffer none end_lat =
      filterStage rows min_buffer max_buffer none end_lat' :=
  ⟨rfl, rfl⟩

/-- C5: when every photon has confidence 0 or 1 (so the quality filter
leaves no rows and no per-latitude-band sea-surface candidates exist), the
sea-surface stage returns `ok` — the run does not crash — with a missing
(`none`) estimate rather than a raised error, and every downstream depth
value derived from that estimate is likewise missing.  The latitude focus
must itself be well-formed (`start_lat` absent, or `end_lat` present). -/
theorem c5_missing_estimate_on_empty_candidates
    (dataset_sea : List PhotonRow) (lat_res h_res min_buffer max_buffer : ℚ)
    (start_lat end_lat : Option ℚ) (surface_buffer : ℚ) (ref_z : List ℚ)
    (hconf : ∀ r ∈ dataset_sea, r.confidence = 0 ∨ r.confidence = 1)
    (hlat : start_lat = none ∨ end_lat ≠ none) :
    seaSurfaceStage dataset_sea lat_res h_res min_buffer max_buffer
        start_lat end_lat surface_buffer = Except.ok none ∧
      (computeDepths none ref_z).all Option.isNone = true := by
  have hempty : filterConfidence dataset_sea = [] := by
    rw [filterConfidence, List.filter_eq_nil_iff]
    intro r hr
    rcases hconf r hr with h0 | h0 <;> simp [h0]
  constructor
  · unfold seaSurfaceStage filterStage
    rw [hempty]
    rcases hlat with h | h
    · subst h; rfl
    · rcases start_lat with _ | s
      · rfl
      · rcases end_lat with _ | e
        · exact absurd rfl h
        · rfl
  · unfold computeDepths
    rw [List.all_eq_true]
    intro d hd
    obtain ⟨z, _, rfl⟩ := List.mem_map.mp hd
    rfl

/-- C5 witness: a concrete two-photon table whose photons have
confidence 0 and 1 yields a missing sea-surface estimate, no crash, and
all-missing depths. -/
theorem c5_missing_estimate_witness :
    seaSurfaceStage
        [{ latitude := 1, longitude := 2, photon_height := -3, confidence := 0,
           ref_elevation := 0, ref_azminuth := 0, ref_sat_alt := 500 },
         { latitude := 2, longitude := 3, photon_height := -4, confidence := 1,
           ref_elevation := 0, ref_azminuth := 0, ref_sat_alt := 500 }]
        10 (1/2) (-40) 5 none none (-(1/2)) = Except.ok none ∧
      (computeDepths none [3, 5]).all Option.isNone = true :=
  c5_missing_estimate_on_empty_candidates _ 10 (1/2) (-40) 5 none none
    (-(1/2)) [3, 5] (by decide) (Or.inl rfl)

end CShelph
